import Mathlib

/-!
Verification development for the media-intelligence dashboard
(`src/streamlit.py`).  The file shallowly embeds the data pipeline of the
script — `clean_data`, the sidebar filter chain, the aggregations
(`groupby(...).sum()`, `value_counts().nlargest(5)`, `mode()[0]`,
`idxmax()`), and `generate_summary` — as executable Lean definitions, and
proves/refutes the frozen claims about them.

Modelling conventions:
* The uploaded file is a byte list (`List Nat`, each < 256); decoding is a
  real UTF-8 decoder (`utf8Decode`), since `clean_data` calls
  `.decode("utf-8")` and an invalid stream must raise.
* `pd.read_csv` is modelled for plain (unquoted) CSV text: lines split on
  `'\n'` (blank lines skipped, as pandas does), fields on `','`; an empty
  field is a null (`none`), mirroring pandas reading empty cells as NaN;
  a data row with more fields than the header is a parse error and a row
  with fewer fields is padded with nulls, as in pandas' C parser.
* `pd.to_datetime(..., errors='coerce')` is modelled for ISO
  `YYYY-MM-DD` date strings (the format used throughout the spec and its
  scenarios); any other string coerces to NaT (`none`).
* `pd.to_numeric(..., errors='coerce')` is modelled for signed decimal
  literals `[+|-]? digits [. digits]` (the exact rational is kept as a
  numerator/denominator pair); other strings coerce to NaN.  Special
  float spellings (`inf`, `nan`, exponents) and surrounding whitespace are
  outside the modelled grammar.  `.astype(int)` is numpy's C cast, i.e.
  truncation toward zero (`truncTowardZero`).
* pandas `groupby` sorts group keys ascending and drops null keys;
  `value_counts` counts the distinct non-null values and sorts them by
  count descending.  pandas performs that sort with numpy's default
  quicksort, which both libraries document as unstable, so the relative
  order of *equal* counts is an artifact of the sort internals, not
  something the script determines.  The model realises the sort with a
  deterministic insertion sort whose equal-count order is first-seen
  (numpy's own behaviour below its insertion-sort cutoff); every property
  proved about the ranking is independent of how equal counts are
  ordered.  `Series.mode()` drops nulls and returns the maximally
  frequent values sorted ascending, so `mode()[0]` is the least such
  value, and it raises when there is no non-null value at all.
-/

set_option maxRecDepth 100000

/-! ## Character-level helpers -/

/-- Is `c` an ASCII digit? -/
def isDig (c : Char) : Bool := 48 ≤ c.toNat && c.toNat ≤ 57

/-- Numeric value of an ASCII digit. -/
def digVal (c : Char) : Nat := c.toNat - 48

/-- Value of a digit string, most significant first. -/
def natOfDigits (cs : List Char) : Nat := cs.foldl (fun a c => a * 10 + digVal c) 0

/-- Split a character list on a separator character (keeps empty pieces,
as Python's `str.split` does). -/
def splitOnChar (sep : Char) : List Char → List (List Char)
  | [] => [[]]
  | c :: cs =>
    let r := splitOnChar sep cs
    if c = sep then [] :: r
    else
      match r with
      | [] => [[c]]
      | h :: t => (c :: h) :: t

/-! ## Numeric parsing: `pd.to_numeric(errors='coerce')` and `.astype(int)` -/

/-- Split a decimal literal's character list into (negative?, integer part
digits, fraction digits); `none` when the text is not a decimal literal.
Mirrors the grammar accepted by `pd.to_numeric` on plain decimal text. -/
def decimalParts (cs : List Char) : Option (Bool × List Char × List Char) :=
  let (neg, rest) :=
    match cs with
    | '-' :: t => (true, t)
    | '+' :: t => (false, t)
    | _ => (false, cs)
  let ip := rest.takeWhile isDig
  let rest2 := rest.dropWhile isDig
  match rest2 with
  | [] => if ip.isEmpty then none else some (neg, ip, [])
  | '.' :: fr =>
    if fr.all isDig && !(ip.isEmpty && fr.isEmpty) then some (neg, ip, fr) else none
  | _ => none

/-- `pd.to_numeric(s, errors='coerce')` on a text cell: the exact value of
the decimal literal as a (numerator, denominator) pair, or `none` (NaN)
when the text does not parse. -/
def parseNumeric (s : String) : Option (Int × Nat) :=
  match decimalParts s.data with
  | none => none
  | some (neg, ip, fr) =>
    let n : Nat := natOfDigits ip * 10 ^ fr.length + natOfDigits fr
    some (if neg then -(n : Int) else (n : Int), 10 ^ fr.length)

/-- Truncation toward zero of the rational `num / den`: numpy's C cast
`float -> int` performed by `.astype(int)`. -/
def truncTowardZero (num : Int) (den : Nat) : Int :=
  if num < 0 then -(((-num).toNat / den : Nat) : Int) else ((num.toNat / den : Nat) : Int)

/-- The whole `Engagements` cell transform of `clean_data` line 83:
`pd.to_numeric(df['Engagements'], errors='coerce').fillna(0).astype(int)`.
A missing cell (NaN) or unparseable text becomes `0`; a decimal literal is
truncated toward zero. -/
def parseEngagements : Option String → Int
  | none => 0
  | some s =>
    match parseNumeric s with
    | none => 0
    | some (n, d) => truncTowardZero n d

/-- Strict integer grammar `[+|-]? digits` (Python's `int(str)`): used only
to state the claims' phrase "parses as an integer". -/
def parseIntStrict (s : String) : Option Int :=
  let (neg, rest) :=
    match s.data with
    | '-' :: t => (true, t)
    | '+' :: t => (false, t)
    | _ => (false, s.data)
  if rest.isEmpty || !(rest.all isDig) then none
  else some (if neg then -(natOfDigits rest : Int) else (natOfDigits rest : Int))

/-! ## Calendar dates: `pd.to_datetime(errors='coerce')` and `.dt.date` -/

/-- A calendar date (the value of `.dt.date`). -/
structure CalDate where
  y : Nat
  m : Nat
  d : Nat
deriving DecidableEq, Repr

/-- Python `datetime.date` ordering (lexicographic on year, month, day). -/
def dateLe (a b : CalDate) : Bool :=
  decide (a.y < b.y) ||
    (decide (a.y = b.y) &&
      (decide (a.m < b.m) || (decide (a.m = b.m) && decide (a.d ≤ b.d))))

/-- Number of days in a month, Gregorian rules. -/
def daysInMonth (y m : Nat) : Nat :=
  if m = 2 then
    if y % 4 = 0 && (y % 100 ≠ 0 || y % 400 = 0) then 29 else 28
  else if m = 4 || m = 6 || m = 9 || m = 11 then 30
  else 31

/-- Parse an ISO `YYYY-MM-DD` date (the fragment of `pd.to_datetime`
behaviour the model covers); `none` (NaT) on anything else. -/
def parseDateStr (cs : List Char) : Option CalDate :=
  match splitOnChar '-' cs with
  | [ys, ms, ds] =>
    if ys.length = 4 && ys.all isDig &&
        (ms.length = 1 || ms.length = 2) && ms.all isDig &&
        (ds.length = 1 || ds.length = 2) && ds.all isDig then
      let y := natOfDigits ys
      let m := natOfDigits ms
      let d := natOfDigits ds
      if 1 ≤ m && m ≤ 12 && 1 ≤ d && d ≤ daysInMonth y m then
        some ⟨y, m, d⟩
      else none
    else none
  | _ => none

/-- `pd.to_datetime(cell, errors='coerce')`: a missing cell (NaN) is NaT,
and unparseable text is NaT. -/
def parseDate (o : Option String) : Option CalDate :=
  o.bind (fun s => parseDateStr s.data)

/-! ## UTF-8 decoding (`bytes.decode("utf-8")`) -/

/-- Worker for `utf8Decode`: the first argument is fuel (structural
recursion so that the kernel can evaluate the decoder); each step consumes
at least one byte, so `length + 1` fuel always suffices. -/
def utf8DecodeFuel : Nat → List Nat → Option (List Char)
  | 0, _ => none
  | _, [] => some []
  | fuel + 1, b :: bs =>
    if b < 0x80 then
      (utf8DecodeFuel fuel bs).map (fun cs => Char.ofNat b :: cs)
    else if b < 0xC2 then none
    else if b < 0xE0 then
      match bs with
      | b1 :: bs1 =>
        if 0x80 ≤ b1 && b1 < 0xC0 then
          (utf8DecodeFuel fuel bs1).map
            (fun cs => Char.ofNat ((b - 0xC0) * 64 + (b1 - 0x80)) :: cs)
        else none
      | [] => none
    else if b < 0xF0 then
      match bs with
      | b1 :: b2 :: bs2 =>
        if (0x80 ≤ b1 && b1 < 0xC0) && (0x80 ≤ b2 && b2 < 0xC0) then
          let c := (b - 0xE0) * 4096 + (b1 - 0x80) * 64 + (b2 - 0x80)
          if c < 0x800 || (0xD800 ≤ c && c < 0xE000) then none
          else (utf8DecodeFuel fuel bs2).map (fun cs => Char.ofNat c :: cs)
        else none
      | _ => none
    else if b < 0xF5 then
      match bs with
      | b1 :: b2 :: b3 :: bs3 =>
        if (0x80 ≤ b1 && b1 < 0xC0) && ((0x80 ≤ b2 && b2 < 0xC0) && (0x80 ≤ b3 && b3 < 0xC0)) then
          let c := (b - 0xF0) * 262144 + (b1 - 0x80) * 4096 + (b2 - 0x80) * 64 + (b3 - 0x80)
          if c < 0x10000 || 0x110000 ≤ c then none
          else (utf8DecodeFuel fuel bs3).map (fun cs => Char.ofNat c :: cs)
        else none
      | _ => none
    else none

/-- Decode a UTF-8 byte stream into characters; `none` models the
`UnicodeDecodeError` raised by `.decode("utf-8")` on an invalid stream.
Rejects stray continuation bytes, overlong encodings, surrogates, and
code points above `0x10FFFF`. -/
def utf8Decode (bs : List Nat) : Option (List Char) :=
  utf8DecodeFuel (bs.length + 1) bs

/-- UTF-8 bytes of an ASCII string (used to build concrete uploads). -/
def asciiBytes (s : String) : List Nat := s.data.map Char.toNat

/-! ## CSV parsing (`pd.read_csv`) -/

/-- Parse CSV text into a header (column names) and data rows.  Blank
lines are skipped (pandas `skip_blank_lines=True`); an entirely empty
input is a parse failure (pandas `EmptyDataError`); a data row with more
fields than the header is a parse failure (pandas `ParserError`); a row
with fewer fields is padded with nulls; an empty field is a null (NaN). -/
def parseCsv (text : List Char) : Option (List String × List (List (Option String))) :=
  let lines := (splitOnChar '\n' text).filter (fun l => !l.isEmpty)
  match lines with
  | [] => none
  | hdr :: rawRows =>
    let cols := (splitOnChar ',' hdr).map (fun f => String.mk f)
    let rows := rawRows.map (fun ln =>
      (splitOnChar ',' ln).map (fun f => if f.isEmpty then none else some (String.mk f)))
    if rows.all (fun r => r.length ≤ cols.length) then
      some (cols, rows.map (fun r => r ++ List.replicate (cols.length - r.length) none))
    else none

/-- Index of a column name in the header (`none` models the `KeyError`
raised by `df[name]` on a missing column). -/
def colIdx : List String → String → Option Nat
  | [], _ => none
  | c :: cs, n => if c = n then some 0 else (colIdx cs n).map (· + 1)

/-- The cell of `row` under column `name`: `none` when the column is
absent from the header or the cell itself is null. -/
def getCell (cols : List String) (row : List (Option String)) (name : String) :
    Option String :=
  match colIdx cols name with
  | none => none
  | some i => (row.get? i).getD none

/-! ## The Canonical Dataset (`clean_data`, lines 67–91) -/

/-- A cleaned record: one row of the canonical dataset.  The categorical
fields are `Option String` because pandas keeps empty cells as NaN and
passes the rest through verbatim. -/
structure CanonRecord where
  date : CalDate
  engagements : Int
  platform : Option String
  sentiment : Option String
  mediaType : Option String
  location : Option String
deriving DecidableEq, Repr

/-- The per-row transform of `clean_data` lines 82–86: the `Date` cell is
coerced with `pd.to_datetime(errors='coerce')` and a NaT row is dropped
(`dropna(subset=['Date'])`); the `Engagements` cell is coerced with
`pd.to_numeric(errors='coerce').fillna(0).astype(int)`; all other cells
pass through untouched. -/
def cleanRow (cols : List String) (row : List (Option String)) : Option CanonRecord :=
  match parseDate (getCell cols row "Date") with
  | none => none
  | some d =>
    some
      { date := d
        engagements := parseEngagements (getCell cols row "Engagements")
        platform := getCell cols row "Platform"
        sentiment := getCell cols row "Sentiment"
        mediaType := getCell cols row "Media Type"
        location := getCell cols row "Location" }

/-- All surviving rows, in their original order. -/
def cleanRows (cols : List String) (rows : List (List (Option String))) :
    List CanonRecord :=
  rows.filterMap (cleanRow cols)

/-- Outcome of the `try` block of `clean_data`: either a raised-and-caught
exception with its message, or the canonical dataset. -/
inductive CleanOutcome where
  | err : String → CleanOutcome
  | ok : List CanonRecord → CleanOutcome
deriving DecidableEq, Repr

/-- The body of `clean_data`'s `try` block.  The error messages stand for
the exception texts interpolated into the `st.error` display: an invalid
byte stream raises `UnicodeDecodeError`, malformed CSV raises a pandas
parse error, and `df['Date']` / `df['Engagements']` on a missing column
raise `KeyError` (line 82 touches `Date` first).  No other column is
touched by `clean_data`. -/
def cleanBody (bytes : List Nat) : CleanOutcome :=
  match utf8Decode bytes with
  | none => .err "UnicodeDecodeError"
  | some text =>
    match parseCsv text with
    | none => .err "ParserError"
    | some (cols, rows) =>
      if colIdx cols "Date" = none then .err "KeyError: Date"
      else if colIdx cols "Engagements" = none then .err "KeyError: Engagements"
      else .ok (cleanRows cols rows)

/-- `clean_data(uploaded_file)`: `None` input returns `None`; a caught
exception is shown via `st.error` (second component: the displayed
message) and `None` is returned; otherwise the canonical dataset is
returned.  The first component is the function's return value
(`df_original`), the second the error display. -/
def clean_data : Option (List Nat) → Option (List CanonRecord) × Option String
  | none => (none, none)
  | some bytes =>
    match cleanBody bytes with
    | .err m => (none, some ("Gagal memproses file: " ++ m))
    | .ok ds => (some ds, none)

/-! ## The Filter Engine (sidebar, lines 156–183) -/

/-- The current sidebar selection.  Each categorical facet is either the
sentinel `"All"` or one exact value; `dateRange` is the tuple returned by
`st.date_input`, which transiently holds fewer than two dates while the
user is picking (the code only applies it when `len(date_range) == 2`). -/
structure Selection where
  platform : String
  sentiment : String
  mediaType : String
  location : String
  dateRange : List CalDate
deriving Repr

/-- One categorical facet (lines 169–176): a selection different from
`"All"` keeps only exact matches of the field; a null cell never equals a
selected value, as NaN compares unequal in pandas. -/
def facetFilter (selVal : String) (field : CanonRecord → Option String)
    (l : List CanonRecord) : List CanonRecord :=
  if selVal ≠ "All" then l.filter (fun r => decide (field r = some selVal)) else l

/-- The filter chain of lines 168–183: `df_filtered` starts as a copy of
`df_original`, the four categorical facets are applied in the order
platform, sentiment, media type, location, and the date constraint keeps
`start_date <= date <= end_date` only when the range tuple has exactly
two entries. -/
def applyFilter (ds : List CanonRecord) (sel : Selection) : List CanonRecord :=
  let d4 :=
    facetFilter sel.location (·.location)
      (facetFilter sel.mediaType (·.mediaType)
        (facetFilter sel.sentiment (·.sentiment)
          (facetFilter sel.platform (·.platform) ds)))
  match sel.dateRange with
  | [s, e] => d4.filter (fun r => dateLe s r.date && dateLe r.date e)
  | _ => d4

/-! ## Aggregations -/

/-- Distinct elements of a list in first-seen order (`seen` accumulates
the values already emitted).  This is the `uniques` order of a pandas
hash table, the order in which `value_counts` first meets each value. -/
def firstSeenAux (seen : List String) : List String → List String
  | [] => []
  | x :: xs =>
    if x ∈ seen then firstSeenAux seen xs
    else x :: firstSeenAux (x :: seen) xs

/-- Distinct elements in first-seen order. -/
def firstSeen (l : List String) : List String := firstSeenAux [] l

/-- Occurrence count of `v` in `l`. -/
def countOcc (v : String) (l : List String) : Nat :=
  (l.filter (fun w => decide (w = v))).length

/-- Lexicographic-by-code-point comparison on character lists (Python's
string ordering restricted to what the script compares). -/
def charListLe : List Char → List Char → Bool
  | [], _ => true
  | _ :: _, [] => false
  | a :: as, b :: bs =>
    if a.toNat < b.toNat then true
    else if b.toNat < a.toNat then false
    else charListLe as bs

/-- String `<=` by code points. -/
def strLeB (a b : String) : Bool := charListLe a.data b.data

/-- Insert into a `strLeB`-sorted list. -/
def insSortedStr (x : String) : List String → List String
  | [] => [x]
  | y :: ys => if strLeB x y then x :: y :: ys else y :: insSortedStr x ys

/-- Sort strings ascending (pandas `groupby` sorts its group keys). -/
def sortStr : List String → List String
  | [] => []
  | x :: xs => insSortedStr x (sortStr xs)

/-- Sum of the `Engagements` column of a view. -/
def sumEng (l : List CanonRecord) : Int := (l.map (·.engagements)).sum

/-- The distinct non-null `Platform` values of a view, in first-seen
order.  pandas `groupby` drops rows whose key is NaN, so a null platform
never forms a group. -/
def platKeys (l : List CanonRecord) : List String :=
  firstSeen (l.filterMap (·.platform))

/-- `df.groupby('Platform')['Engagements'].sum()` (line 100 / line 220):
one entry per distinct non-null platform (keys sorted ascending), paired
with the exact integer sum of `Engagements` over the matching rows. -/
def groupSumPlatform (l : List CanonRecord) : List (String × Int) :=
  (sortStr (platKeys l)).map
    (fun k => (k, sumEng (l.filter (fun r => decide (r.platform = some k)))))

/-- Sum of all per-group totals of `groupSumPlatform`. -/
def groupTotal (l : List CanonRecord) : Int :=
  ((groupSumPlatform l).map (·.2)).sum

/-- Insert into a count-sorted (descending) list, placing the new element
before the first entry whose count is `≤` its own.  This renders the
model's sort deterministic — equal counts end up in the order the
distinct values were first seen — where pandas itself leaves the order of
equal counts unspecified (numpy's default quicksort is unstable), so no
tie-order fact is asserted about the code. -/
def insCnt (x : String × Nat) : List (String × Nat) → List (String × Nat)
  | [] => [x]
  | y :: ys => if y.2 ≤ x.2 then x :: y :: ys else y :: insCnt x ys

/-- Sort by count, descending: a deterministic model of the
unspecified-tie-order pandas sort. -/
def sortCnt : List (String × Nat) → List (String × Nat)
  | [] => []
  | x :: xs => insCnt x (sortCnt xs)

/-- `Series.value_counts()`: occurrence counts of the distinct non-null
values, ordered by count descending.  The order among equal counts is
fixed here to first-seen — one concrete resolution of a tie order the
library does not specify. -/
def value_counts (l : List String) : List (String × Nat) :=
  sortCnt ((firstSeen l).map (fun v => (v, countOcc v l)))

/-- `df_filtered['Location'].value_counts().nlargest(5)` (line 231): the
top five locations by post count.  The order of equal counts inherits the
model's deterministic choice; the properties proved about the ranking
below are independent of that choice. -/
def top_locations (view : List CanonRecord) : List (String × Nat) :=
  (value_counts (view.filterMap (·.location))).take 5

/-- `Series.mode()[0]`: among the non-null values, the maximally frequent
ones form the mode series sorted ascending, and `[0]` takes its least
element; `none` models the `KeyError` raised by `[0]` when there is no
non-null value at all (the mode series is then empty). -/
def modeFirst (l : List String) : Option String :=
  match firstSeen l with
  | [] => none
  | v :: vs =>
    some (vs.foldl
      (fun best w =>
        if countOcc best l < countOcc w l then w
        else if decide (countOcc w l = countOcc best l) && strLeB w best && !(strLeB best w) then w
        else best)
      v)

/-- `Series.idxmax()` on a key-sorted sum series: the key of the largest
value, the earliest one on ties. -/
def idxmax : List (String × Int) → String
  | [] => ""
  | p :: ps => (ps.foldl (fun best q => if best.2 < q.2 then q else best) p).1

/-! ## The Summary Generator (`generate_summary`, lines 93–122) -/

/-- Line 101: `platform_engagements.idxmax() if not
platform_engagements.empty else 'Tidak Tersedia'`. -/
def top_platform (df : List CanonRecord) : String :=
  let pe := groupSumPlatform df
  if pe.isEmpty then "Tidak Tersedia" else idxmax pe

/-- Line 104: `df['Sentiment'].mode()[0] if not df['Sentiment'].empty else
'Tidak Tersedia'`.  The guard tests whether the *column* is empty (it
never is on a non-empty frame); `none` records that `mode()[0]` raised. -/
def dominant_sentiment (df : List CanonRecord) : Option String :=
  if (df.map (·.sentiment)).isEmpty then some "Tidak Tersedia"
  else modeFirst (df.filterMap (·.sentiment))

/-- Line 107, same shape for `Media Type`. -/
def top_media_type (df : List CanonRecord) : Option String :=
  if (df.map (·.mediaType)).isEmpty then some "Tidak Tersedia"
  else modeFirst (df.filterMap (·.mediaType))

/-- Line 110, same shape for `Location`. -/
def top_location (df : List CanonRecord) : Option String :=
  if (df.map (·.location)).isEmpty then some "Tidak Tersedia"
  else modeFirst (df.filterMap (·.location))

/-- Result of `generate_summary`: the empty string returned on an empty
frame, the rendered four facts (top platform, top media type, dominant
sentiment, top location), or the fixed failure text returned by the
`except` branch when one of the fact computations raises. -/
inductive Summary where
  | empty : Summary
  | facts : String → String → String → String → Summary
  | failed : Summary
deriving DecidableEq, Repr

/-- `generate_summary(df)` (lines 93–122): empty frame → `""`; otherwise
the four facts are computed in order and interpolated into the template;
if any of the `mode()[0]` accesses raises (its column has no non-null
value), the `except Exception` branch returns the failure message
instead. -/
def generate_summary (df : List CanonRecord) : Summary :=
  if df.isEmpty then .empty
  else
    match dominant_sentiment df, top_media_type df, top_location df with
    | some s, some m, some l => .facts (top_platform df) m s l
    | _, _, _ => .failed

/-! ## The main-area dispatch (lines 186–189) -/

/-- What the main dashboard area shows. -/
inductive MainView where
  | noData : MainView
  | emptyResult : MainView
  | dashboard : MainView
deriving DecidableEq, Repr

/-- Lines 186–189: no upload yet → the info notice; an upload whose
filtered view is empty → the "no rows matched" warning; otherwise the
charts. -/
def renderMain (df_original : Option (List CanonRecord))
    (df_filtered : List CanonRecord) : MainView :=
  match df_original with
  | none => .noData
  | some _ => if df_filtered.isEmpty then .emptyResult else .dashboard

/-! ## Concrete example data

Uploads and views used by the concrete counterexamples and witnesses
below.  The CSV texts follow the six-column layout the sidebar help text
asks for. -/

/-- An upload whose single row has the non-integer `Engagements` text
`3.7`. -/
def csvDecimal : List Nat :=
  asciiBytes
    "Date,Platform,Engagements,Sentiment,Media Type,Location\n2024-01-01,X,3.7,Pos,Video,NY"

/-- An upload whose single row has the negative `Engagements` text `-5`. -/
def csvNegative : List Nat :=
  asciiBytes
    "Date,Platform,Engagements,Sentiment,Media Type,Location\n2024-01-01,X,-5,Pos,Video,NY"

/-- An upload with an empty `Platform` cell on a row carrying engagements
5, next to a normal row carrying 10. -/
def csvNullPlatform : List Nat :=
  asciiBytes
    "Date,Platform,Engagements,Sentiment,Media Type,Location\n2024-01-01,,5,Pos,Video,NY\n2024-01-01,X,10,Pos,Video,NY"

/-- An upload whose single row has an empty `Sentiment` cell. -/
def csvNullSentiment : List Nat :=
  asciiBytes
    "Date,Platform,Engagements,Sentiment,Media Type,Location\n2024-01-01,X,10,,Video,NY"

/-- An upload whose header has `Date` and `Engagements` but none of the
other four required columns. -/
def csvTwoCols : List Nat := asciiBytes "Date,Engagements\n2024-01-01,5"

/-- The canonical dataset of `csvNullPlatform`. -/
def dsNullPlatform : List CanonRecord :=
  [{ date := ⟨2024, 1, 1⟩, engagements := 5, platform := none,
     sentiment := some "Pos", mediaType := some "Video", location := some "NY" },
   { date := ⟨2024, 1, 1⟩, engagements := 10, platform := some "X",
     sentiment := some "Pos", mediaType := some "Video", location := some "NY" }]

/-- The selection with every facet on `"All"` and no date range chosen. -/
def selAll : Selection :=
  { platform := "All", sentiment := "All", mediaType := "All",
    location := "All", dateRange := [] }

/-- A record with a given date and location (other fields null): enough
structure for the location ranking examples. -/
def recAt (dt : CalDate) (loc : String) : CanonRecord :=
  { date := dt, engagements := 0, platform := none, sentiment := none,
    mediaType := none, location := some loc }

/-- A view whose location counts are A:2 and B,C,D,E,F:1 — six distinct
locations, so the top-5 ranking must drop one. -/
def viewLocations : List CanonRecord :=
  [recAt ⟨2024, 1, 1⟩ "A", recAt ⟨2024, 1, 1⟩ "A", recAt ⟨2024, 1, 1⟩ "B",
   recAt ⟨2024, 1, 2⟩ "C", recAt ⟨2024, 1, 2⟩ "D", recAt ⟨2024, 1, 3⟩ "E",
   recAt ⟨2024, 1, 3⟩ "F"]

/-- A two-record dataset spanning two dates with full categorical
fields. -/
def dsTwoDates : List CanonRecord :=
  [{ date := ⟨2024, 1, 1⟩, engagements := 10, platform := some "X",
     sentiment := some "Positive", mediaType := some "Video", location := some "NY" },
   { date := ⟨2024, 1, 2⟩, engagements := 5, platform := some "Y",
     sentiment := some "Negative", mediaType := some "Photo", location := some "LA" }]

/-! ## Helper lemmas: first-seen distinct values -/

theorem firstSeenAux_mem (l : List String) :
    ∀ (seen : List String) (a : String),
      a ∈ firstSeenAux seen l ↔ a ∈ l ∧ a ∉ seen := by
  induction l with
  | nil => intro seen a; simp [firstSeenAux]
  | cons x xs ih =>
    intro seen a
    by_cases hx : x ∈ seen
    · rw [firstSeenAux, if_pos hx, ih]
      constructor
      · rintro ⟨h1, h2⟩; exact ⟨List.mem_cons_of_mem _ h1, h2⟩
      · rintro ⟨h1, h2⟩
        rcases List.mem_cons.mp h1 with rfl | h1
        · exact absurd hx h2
        · exact ⟨h1, h2⟩
    · rw [firstSeenAux, if_neg hx]
      constructor
      · intro h
        rcases List.mem_cons.mp h with rfl | h
        · exact ⟨List.mem_cons_self _ _, hx⟩
        · rcases (ih _ _).mp h with ⟨h1, h2⟩
          refine ⟨List.mem_cons_of_mem _ h1, fun hs => h2 (List.mem_cons_of_mem _ hs)⟩
      · rintro ⟨h1, h2⟩
        rcases List.mem_cons.mp h1 with rfl | h1
        · exact List.mem_cons_self _ _
        · by_cases hax : a = x
          · subst hax; exact List.mem_cons_self _ _
          · refine List.mem_cons_of_mem _ ((ih _ _).mpr ⟨h1, fun hs => ?_⟩)
            rcases List.mem_cons.mp hs with h | h
            · exact hax h
            · exact h2 h

theorem firstSeenAux_nodup (l : List String) :
    ∀ seen : List String, (firstSeenAux seen l).Nodup := by
  induction l with
  | nil => intro seen; simp [firstSeenAux]
  | cons x xs ih =>
    intro seen
    by_cases hx : x ∈ seen
    · rw [firstSeenAux, if_pos hx]; exact ih seen
    · rw [firstSeenAux, if_neg hx]
      refine List.nodup_cons.mpr ⟨fun hmem => ?_, ih _⟩
      exact ((firstSeenAux_mem xs _ x).mp hmem).2 (List.mem_cons_self _ _)

theorem firstSeen_mem (l : List String) (a : String) :
    a ∈ firstSeen l ↔ a ∈ l := by
  rw [firstSeen, firstSeenAux_mem]; simp

theorem firstSeen_nodup (l : List String) : (firstSeen l).Nodup :=
  firstSeenAux_nodup l []

theorem firstSeen_nil : firstSeen [] = [] := rfl

theorem firstSeen_cons (x : String) (xs : List String) :
    firstSeen (x :: xs) = x :: firstSeenAux [x] xs := by
  rw [firstSeen, firstSeenAux, if_neg (List.not_mem_nil x)]

/-! ## Helper lemmas: the string sort used for group keys -/

theorem insSortedStr_perm (x : String) (l : List String) :
    (insSortedStr x l).Perm (x :: l) := by
  induction l with
  | nil => exact List.Perm.refl _
  | cons y ys ih =>
    rw [insSortedStr]
    by_cases h : strLeB x y
    · rw [if_pos h]
    · rw [if_neg h]
      exact (ih.cons y).trans (List.Perm.swap x y ys)

theorem sortStr_perm (l : List String) : (sortStr l).Perm l := by
  induction l with
  | nil => exact List.Perm.refl _
  | cons x xs ih =>
    exact (insSortedStr_perm x (sortStr xs)).trans (ih.cons x)

/-! ## Helper lemmas: the stable count sort -/

theorem insCnt_perm (x : String × Nat) (l : List (String × Nat)) :
    (insCnt x l).Perm (x :: l) := by
  induction l with
  | nil => exact List.Perm.refl _
  | cons y ys ih =>
    rw [insCnt]
    by_cases h : y.2 ≤ x.2
    · rw [if_pos h]
    · rw [if_neg h]
      exact (ih.cons y).trans (List.Perm.swap x y ys)

theorem sortCnt_perm (l : List (String × Nat)) : (sortCnt l).Perm l := by
  induction l with
  | nil => exact List.Perm.refl _
  | cons x xs ih =>
    exact (insCnt_perm x (sortCnt xs)).trans (ih.cons x)

theorem insCnt_pairwise {x : String × Nat} {l : List (String × Nat)}
    (h : l.Pairwise (fun a b => b.2 ≤ a.2)) :
    (insCnt x l).Pairwise (fun a b => b.2 ≤ a.2) := by
  induction l with
  | nil => simp [insCnt]
  | cons y ys ih =>
    rcases List.pairwise_cons.mp h with ⟨hy, hys⟩
    rw [insCnt]
    by_cases hle : y.2 ≤ x.2
    · rw [if_pos hle]
      refine List.pairwise_cons.mpr ⟨fun b hb => ?_, h⟩
      rcases List.mem_cons.mp hb with rfl | hb
      · exact hle
      · exact le_trans (hy b hb) hle
    · rw [if_neg hle]
      refine List.pairwise_cons.mpr ⟨fun b hb => ?_, ih hys⟩
      rcases List.mem_cons.mp ((insCnt_perm x ys).mem_iff.mp hb) with h' | h'
      · subst h'; exact le_of_not_le hle
      · exact hy b h'

theorem sortCnt_pairwise (l : List (String × Nat)) :
    (sortCnt l).Pairwise (fun a b => b.2 ≤ a.2) := by
  induction l with
  | nil => simp [sortCnt]
  | cons x xs ih => exact insCnt_pairwise ih


/-! ## Helper lemmas: sums and the groupby partition -/

theorem sumEng_nil : sumEng [] = 0 := rfl

theorem sumEng_cons (r : CanonRecord) (l : List CanonRecord) :
    sumEng (r :: l) = r.engagements + sumEng l := by
  simp [sumEng]

theorem sumEng_filter_cons (p : CanonRecord → Bool) (r : CanonRecord)
    (l : List CanonRecord) :
    sumEng ((r :: l).filter p)
      = (if p r then r.engagements else 0) + sumEng (l.filter p) := by
  by_cases h : p r
  · rw [List.filter_cons_of_pos h, sumEng_cons, if_pos h]
  · rw [List.filter_cons_of_neg h, if_neg h, zero_add]

theorem sum_map_zero_int (ks : List String) :
    (ks.map (fun _ => (0 : Int))).sum = 0 := by
  apply List.sum_eq_zero
  intro x hx
  rcases List.mem_map.mp hx with ⟨k, _, rfl⟩
  rfl

theorem sum_single_hit (p : Option String) (e : Int) :
    ∀ (ks : List String), ks.Nodup →
      (ks.map (fun k => if p = some k then e else 0)).sum
        = if p ∈ ks.map some then e else 0 := by
  intro ks
  induction ks with
  | nil => intro _; simp
  | cons k ks' ih =>
    intro hnd
    rcases List.nodup_cons.mp hnd with ⟨hk, hnd'⟩
    rw [List.map_cons, List.sum_cons, ih hnd', List.map_cons]
    by_cases h : p = some k
    · rw [if_pos h]
      have hnot : p ∉ ks'.map some := by
        intro hmem
        rcases List.mem_map.mp hmem with ⟨k', hk', hs⟩
        have : k' = k := Option.some.inj (hs.trans h)
        exact hk (this ▸ hk')
      have hmem : p ∈ some k :: ks'.map some := by
        rw [h]; exact List.mem_cons_self _ _
      rw [if_neg hnot, if_pos hmem]
      ring
    · rw [if_neg h]
      have : (p ∈ some k :: ks'.map some) ↔ (p ∈ ks'.map some) := by
        constructor
        · intro hmem
          rcases List.mem_cons.mp hmem with hpk | hmem'
          · exact absurd hpk h
          · exact hmem'
        · exact fun hmem => List.mem_cons_of_mem _ hmem
      by_cases h2 : p ∈ ks'.map some
      · rw [if_pos h2, if_pos (this.mpr h2), zero_add]
      · rw [if_neg h2, if_neg (fun hm => h2 (this.mp hm)), zero_add]

theorem groupSum_partition (l : List CanonRecord) :
    ∀ (ks : List String), ks.Nodup →
      (ks.map (fun k => sumEng (l.filter (fun r => decide (r.platform = some k))))).sum
        = sumEng (l.filter (fun r => decide (r.platform ∈ ks.map some))) := by
  induction l with
  | nil =>
    intro ks _
    simp only [List.filter_nil, sumEng_nil]
    exact sum_map_zero_int ks
  | cons r l' ih =>
    intro ks hnd
    simp only [sumEng_filter_cons, decide_eq_true_eq]
    rw [List.sum_map_add, ih ks hnd, sum_single_hit r.platform r.engagements ks hnd]

theorem groupTotal_eq (l : List CanonRecord) :
    groupTotal l = sumEng (l.filter (fun r => r.platform.isSome)) := by
  have h1 : groupTotal l
      = ((sortStr (platKeys l)).map
          (fun k => sumEng (l.filter (fun r => decide (r.platform = some k))))).sum := by
    simp [groupTotal, groupSumPlatform, List.map_map, Function.comp_def]
  rw [h1, ((sortStr_perm (platKeys l)).map _).sum_eq,
    groupSum_partition l (platKeys l) (firstSeen_nodup _)]
  congr 1
  apply List.filter_congr
  intro r hr
  by_cases h : r.platform.isSome
  · rcases Option.isSome_iff_exists.mp h with ⟨p, hp⟩
    have hmem : p ∈ platKeys l := by
      rw [platKeys, firstSeen_mem]
      exact List.mem_filterMap.mpr ⟨r, hr, hp⟩
    have hin : r.platform ∈ (platKeys l).map some :=
      List.mem_map.mpr ⟨p, hmem, hp.symm⟩
    simp [hin, h]
  · have hnone : r.platform = none := Option.not_isSome_iff_eq_none.mp h
    have hout : r.platform ∉ (platKeys l).map some := by
      rw [hnone]
      intro hmem
      rcases List.mem_map.mp hmem with ⟨k, _, hk⟩
      cases hk
    simp [hout, h]

/-! ## Helper lemmas: the filter chain -/

theorem facetFilter_sublist (v : String) (f : CanonRecord → Option String)
    (l : List CanonRecord) : List.Sublist (facetFilter v f l) l := by
  unfold facetFilter
  split
  · exact List.filter_sublist l
  · exact List.Sublist.refl l

theorem facetFilter_all (f : CanonRecord → Option String) (l : List CanonRecord) :
    facetFilter "All" f l = l := by
  unfold facetFilter
  simp

theorem chainFilter_sublist (ds : List CanonRecord) (sel : Selection) :
    List.Sublist
      (facetFilter sel.location (·.location)
        (facetFilter sel.mediaType (·.mediaType)
          (facetFilter sel.sentiment (·.sentiment)
            (facetFilter sel.platform (·.platform) ds)))) ds :=
  (facetFilter_sublist _ _ _).trans
    ((facetFilter_sublist _ _ _).trans
      ((facetFilter_sublist _ _ _).trans (facetFilter_sublist _ _ _)))

theorem applyFilter_two (ds : List CanonRecord) (sel : Selection) (lo hi : CalDate)
    (h : sel.dateRange = [lo, hi]) :
    applyFilter ds sel
      = (facetFilter sel.location (·.location)
          (facetFilter sel.mediaType (·.mediaType)
            (facetFilter sel.sentiment (·.sentiment)
              (facetFilter sel.platform (·.platform) ds)))).filter
          (fun r => dateLe lo r.date && dateLe r.date hi) := by
  unfold applyFilter
  rw [h]

theorem applyFilter_other (ds : List CanonRecord) (sel : Selection)
    (h : sel.dateRange.length ≠ 2) :
    applyFilter ds sel
      = facetFilter sel.location (·.location)
          (facetFilter sel.mediaType (·.mediaType)
            (facetFilter sel.sentiment (·.sentiment)
              (facetFilter sel.platform (·.platform) ds))) := by
  unfold applyFilter
  rcases hdr : sel.dateRange with _ | ⟨a, _ | ⟨b, _ | ⟨c, t⟩⟩⟩
  · rfl
  · rfl
  · exact absurd (show sel.dateRange.length = 2 by rw [hdr]; rfl) h
  · rfl

theorem applyFilter_sublist (ds : List CanonRecord) (sel : Selection) :
    List.Sublist (applyFilter ds sel) ds := by
  rcases hdr : sel.dateRange with _ | ⟨a, _ | ⟨b, _ | ⟨c, t⟩⟩⟩
  · rw [applyFilter_other ds sel (by rw [hdr]; simp)]
    exact chainFilter_sublist ds sel
  · rw [applyFilter_other ds sel (by rw [hdr]; simp)]
    exact chainFilter_sublist ds sel
  · rw [applyFilter_two ds sel a b hdr]
    exact (List.filter_sublist _).trans (chainFilter_sublist ds sel)
  · rw [applyFilter_other ds sel (by rw [hdr]; simp)]
    exact chainFilter_sublist ds sel

/-! ## Helper lemmas: cleaning -/

theorem cleanRow_none_iff (cols : List String) (row : List (Option String)) :
    cleanRow cols row = none ↔ parseDate (getCell cols row "Date") = none := by
  unfold cleanRow
  cases parseDate (getCell cols row "Date") <;> simp

theorem cleanRow_some (cols : List String) (row : List (Option String))
    (d : CalDate) (h : parseDate (getCell cols row "Date") = some d) :
    cleanRow cols row
      = some
          { date := d
            engagements := parseEngagements (getCell cols row "Engagements")
            platform := getCell cols row "Platform"
            sentiment := getCell cols row "Sentiment"
            mediaType := getCell cols row "Media Type"
            location := getCell cols row "Location" } := by
  unfold cleanRow
  rw [h]

theorem cleanRow_engagements (cols : List String) (row : List (Option String))
    (r : CanonRecord) (h : cleanRow cols row = some r) :
    r.engagements = parseEngagements (getCell cols row "Engagements") := by
  unfold cleanRow at h
  cases hd : parseDate (getCell cols row "Date") with
  | none => rw [hd] at h; cases h
  | some d =>
    rw [hd] at h
    injection h with h'
    rw [← h']

/-! ## Helper lemmas: the summary generator -/

theorem isEmpty_false_of_ne_nil {α : Type} {l : List α} (h : l ≠ []) :
    l.isEmpty = false := by
  cases l with
  | nil => exact absurd rfl h
  | cons a t => rfl

theorem modeFirst_nil : modeFirst [] = none := rfl

theorem dominant_sentiment_none (df : List CanonRecord) (hne : df ≠ [])
    (h : df.filterMap (·.sentiment) = []) : dominant_sentiment df = none := by
  have hmap : (df.map (·.sentiment)).isEmpty = false := by
    cases df with
    | nil => exact absurd rfl hne
    | cons a t => rfl
  unfold dominant_sentiment
  rw [if_neg (by rw [hmap]; exact Bool.false_ne_true), h, modeFirst_nil]

theorem top_media_type_none (df : List CanonRecord) (hne : df ≠ [])
    (h : df.filterMap (·.mediaType) = []) : top_media_type df = none := by
  have hmap : (df.map (·.mediaType)).isEmpty = false := by
    cases df with
    | nil => exact absurd rfl hne
    | cons a t => rfl
  unfold top_media_type
  rw [if_neg (by rw [hmap]; exact Bool.false_ne_true), h, modeFirst_nil]

theorem top_location_none (df : List CanonRecord) (hne : df ≠ [])
    (h : df.filterMap (·.location) = []) : top_location df = none := by
  have hmap : (df.map (·.location)).isEmpty = false := by
    cases df with
    | nil => exact absurd rfl hne
    | cons a t => rfl
  unfold top_location
  rw [if_neg (by rw [hmap]; exact Bool.false_ne_true), h, modeFirst_nil]

theorem generate_summary_failed_of (df : List CanonRecord) (hne : df ≠ [])
    (h : dominant_sentiment df = none ∨ top_media_type df = none ∨
      top_location df = none) :
    generate_summary df = Summary.failed := by
  have hdf : df.isEmpty = false := isEmpty_false_of_ne_nil hne
  unfold generate_summary
  rw [if_neg (by rw [hdf]; exact Bool.false_ne_true)]
  rcases h with h | h | h <;>
    cases hds : dominant_sentiment df <;> cases htm : top_media_type df <;>
      cases htl : top_location df <;> simp_all

/-! ## Claim theorems -/

/-- Claim C1 (amended): Cleaning applies an asymmetric per-row policy: a row
whose `Date` cell fails to parse is excluded from the canonical dataset
entirely, while a row whose `Engagements` cell is missing or fails to
parse *as a number* is kept with `engagements = 0` (never excluded for
that reason).  ("As an integer" in the original claim is amended to "as a
number": a non-integer numeric text such as `3.7` is kept truncated, not
zeroed — see the counterexample.) -/
theorem clean_row_policy (cols : List String) (row : List (Option String)) :
    (parseDate (getCell cols row "Date") = none →
      cleanRow cols row = none ∧
      ∀ rows, cleanRows cols (row :: rows) = cleanRows cols rows) ∧
    (∀ d, parseDate (getCell cols row "Date") = some d →
      (cleanRow cols row).isSome ∧
      (∀ rows, cleanRows cols (row :: rows)
          = { date := d
              engagements := parseEngagements (getCell cols row "Engagements")
              platform := getCell cols row "Platform"
              sentiment := getCell cols row "Sentiment"
              mediaType := getCell cols row "Media Type"
              location := getCell cols row "Location" } :: cleanRows cols rows) ∧
      ((getCell cols row "Engagements" = none ∨
        (∃ s, getCell cols row "Engagements" = some s ∧ parseNumeric s = none)) →
        parseEngagements (getCell cols row "Engagements") = 0)) := by
  constructor
  · intro h
    have hc : cleanRow cols row = none := (cleanRow_none_iff cols row).mpr h
    refine ⟨hc, fun rows => ?_⟩
    rw [cleanRows, List.filterMap_cons, hc]
    rfl
  · intro d hd
    have hc := cleanRow_some cols row d hd
    refine ⟨by rw [hc]; rfl, fun rows => ?_, fun he => ?_⟩
    · rw [cleanRows, List.filterMap_cons, hc]
      rfl
    · rcases he with hnone | ⟨s, hs, hn⟩
      · rw [hnone]
        rfl
      · rw [hs]
        simp [parseEngagements, hn]

/-- Witness for C1 at concrete rows: an `Engagements` cell `abc` keeps the
row with engagements 0, while a `Date` cell `nope` drops the row. -/
theorem clean_row_policy_witness :
    (cleanRow ["Date", "Engagements"] [some "2024-01-01", some "abc"]).isSome ∧
    parseEngagements
        (getCell ["Date", "Engagements"] [some "2024-01-01", some "abc"] "Engagements")
      = 0 ∧
    cleanRow ["Date", "Engagements"] [some "nope", some "7"] = none :=
  ⟨((clean_row_policy ["Date", "Engagements"]
      [some "2024-01-01", some "abc"]).2 ⟨2024, 1, 1⟩ (by decide)).1,
   ((clean_row_policy ["Date", "Engagements"]
      [some "2024-01-01", some "abc"]).2 ⟨2024, 1, 1⟩ (by decide)).2.2
     (Or.inr ⟨"abc", rfl, by decide⟩),
   ((clean_row_policy ["Date", "Engagements"]
      [some "nope", some "7"]).1 (by decide)).1⟩

/-- Claim C1 (counterexample): The text `3.7` fails to parse as an integer,
yet the row is kept with engagements 3, not 0: the original claim's
"fails to parse as an integer ⟶ engagements = 0" is false on the code. -/
theorem clean_row_policy_cex :
    parseIntStrict "3.7" = none ∧
    cleanBody csvDecimal
      = CleanOutcome.ok
          [{ date := ⟨2024, 1, 1⟩, engagements := 3, platform := some "X",
             sentiment := some "Pos", mediaType := some "Video",
             location := some "NY" }] ∧
    (3 : Int) ≠ 0 :=
  ⟨by decide, by decide, by decide⟩

/-- Claim C2 (amended): Inside `clean`, a `FormatError` outcome (with the
underlying message retained and no dataset produced) arises exactly from:
an invalid UTF-8 byte stream, unparseable CSV text, or a header missing
the `Date` or `Engagements` column.  A header missing only the other four
required columns does *not* make `clean` fail (see the counterexample);
those columns surface later, outside `clean_data`. -/
theorem clean_error_spec (bytes : List Nat) :
    (utf8Decode bytes = none →
      cleanBody bytes = CleanOutcome.err "UnicodeDecodeError") ∧
    (∀ text, utf8Decode bytes = some text → parseCsv text = none →
      cleanBody bytes = CleanOutcome.err "ParserError") ∧
    (∀ text cols rows, utf8Decode bytes = some text →
      parseCsv text = some (cols, rows) → colIdx cols "Date" = none →
      cleanBody bytes = CleanOutcome.err "KeyError: Date") ∧
    (∀ text cols rows, utf8Decode bytes = some text →
      parseCsv text = some (cols, rows) → colIdx cols "Date" ≠ none →
      colIdx cols "Engagements" = none →
      cleanBody bytes = CleanOutcome.err "KeyError: Engagements") ∧
    (∀ text cols rows, utf8Decode bytes = some text →
      parseCsv text = some (cols, rows) → colIdx cols "Date" ≠ none →
      colIdx cols "Engagements" ≠ none →
      cleanBody bytes = CleanOutcome.ok (cleanRows cols rows)) ∧
    (∀ m, cleanBody bytes = CleanOutcome.err m →
      clean_data (some bytes) = (none, some ("Gagal memproses file: " ++ m))) := by
  refine ⟨?_, ?_, ?_, ?_, ?_, ?_⟩
  · intro h
    unfold cleanBody
    rw [h]
  · intro text h1 h2
    simp [cleanBody, h1, h2]
  · intro text cols rows h1 h2 h3
    simp [cleanBody, h1, h2, h3]
  · intro text cols rows h1 h2 h3 h4
    simp [cleanBody, h1, h2, h3, h4]
  · intro text cols rows h1 h2 h3 h4
    simp [cleanBody, h1, h2, h3, h4]
  · intro m h
    simp [clean_data, h]

/-- Witness for C2: the one-byte upload `0xFF` is not valid UTF-8, so
`clean_data` shows the decode error and returns no dataset. -/
theorem clean_error_spec_witness :
    clean_data (some [0xFF])
      = (none, some ("Gagal memproses file: " ++ "UnicodeDecodeError")) :=
  (clean_error_spec [0xFF]).2.2.2.2.2 "UnicodeDecodeError"
    ((clean_error_spec [0xFF]).1 (by decide))

/-- Claim C2 (counterexample): A header carrying only `Date` and
`Engagements` — missing four of the six required columns — does not make
`clean` signal an error: a dataset is produced, contradicting the claim
that a header missing *any* of the six required columns yields a
`FormatError` with no dataset. -/
theorem clean_error_spec_cex :
    cleanBody csvTwoCols
      = CleanOutcome.ok
          [{ date := ⟨2024, 1, 1⟩, engagements := 5, platform := none,
             sentiment := none, mediaType := none, location := none }] := by
  decide

/-- Claim C9 (amended): Every record of the canonical dataset carries the
integer produced by the `Engagements` coercion of its raw row; the value
is non-negative provided every row's coerced `Engagements` value is
non-negative (missing or unparseable cells coerce to 0).  Unrestricted
non-negativity is false: a negative literal such as `-5` is stored as-is
(see the counterexample). -/
theorem engagements_nonneg_amended (cols : List String)
    (rows : List (List (Option String)))
    (h : ∀ row ∈ rows, 0 ≤ parseEngagements (getCell cols row "Engagements")) :
    ∀ r ∈ cleanRows cols rows, 0 ≤ r.engagements := by
  intro r hr
  rw [cleanRows] at hr
  rcases List.mem_filterMap.mp hr with ⟨row, hrow, hclean⟩
  rw [cleanRow_engagements cols row r hclean]
  exact h row hrow

/-- Witness for C9 at a concrete upload whose `Engagements` values are
non-negative. -/
theorem engagements_nonneg_witness :
    (0 : Int)
      ≤ ({ date := ⟨2024, 1, 1⟩, engagements := 7, platform := none,
           sentiment := none, mediaType := none,
           location := none } : CanonRecord).engagements :=
  engagements_nonneg_amended ["Date", "Engagements"]
    [[some "2024-01-01", some "7"]] (by decide) _ (by decide)

/-- Claim C9 (counterexample): The upload with `Engagements = "-5"` yields a
canonical record with a negative engagements value: the invariant claimed
for every possible raw input is false. -/
theorem engagements_nonneg_cex :
    cleanBody csvNegative
      = CleanOutcome.ok
          [{ date := ⟨2024, 1, 1⟩, engagements := -5, platform := some "X",
             sentiment := some "Pos", mediaType := some "Video",
             location := some "NY" }] ∧
    ({ date := ⟨2024, 1, 1⟩, engagements := -5, platform := some "X",
       sentiment := some "Pos", mediaType := some "Video",
       location := some "NY" } : CanonRecord).engagements < 0 :=
  ⟨by decide, by decide⟩

/-- Claim C10: When the `Engagements` text parses as a number `n / d` but
not as an integer (e.g. `3.7`), the cleaned row is kept and stores the
value truncated toward zero, `truncTowardZero n d`. -/
theorem clean_truncates_numeric (cols : List String) (row : List (Option String))
    (s : String) (n : Int) (d : Nat) (dt : CalDate)
    (hs : getCell cols row "Engagements" = some s)
    (hn : parseNumeric s = some (n, d))
    (hi : parseIntStrict s = none)
    (hd : parseDate (getCell cols row "Date") = some dt) :
    cleanRow cols row
      = some
          { date := dt, engagements := truncTowardZero n d
            platform := getCell cols row "Platform"
            sentiment := getCell cols row "Sentiment"
            mediaType := getCell cols row "Media Type"
            location := getCell cols row "Location" } := by
  rw [cleanRow_some cols row dt hd, hs]
  simp [parseEngagements, hn]

/-- Witness for C10: `3.7` is kept as 3 = `truncTowardZero 37 10`. -/
theorem clean_truncates_numeric_witness :
    cleanRow ["Date", "Engagements"] [some "2024-01-01", some "3.7"]
      = some
          { date := ⟨2024, 1, 1⟩, engagements := 3, platform := none,
            sentiment := none, mediaType := none, location := none } :=
  (clean_truncates_numeric ["Date", "Engagements"]
      [some "2024-01-01", some "3.7"] "3.7" 37 10 ⟨2024, 1, 1⟩
      (by decide) (by decide) (by decide) (by decide)).trans (by decide)

/-- Claim C3: The date facet keeps exactly the records whose date component
lies within `[start_date, end_date]`, both bounds inclusive (`dateLe` is
reflexive, so boundary dates qualify), and when the supplied range has
fewer than two endpoints the date constraint is not applied at all — the
result coincides with filtering under no date range. -/
theorem date_facet_spec (ds : List CanonRecord) (sel : Selection) :
    (∀ lo hi, sel.dateRange = [lo, hi] →
      ∀ r, r ∈ applyFilter ds sel ↔
        r ∈ applyFilter ds { sel with dateRange := [] } ∧
          dateLe lo r.date = true ∧ dateLe r.date hi = true) ∧
    (sel.dateRange.length ≠ 2 →
      applyFilter ds sel = applyFilter ds { sel with dateRange := [] }) ∧
    (∀ d : CalDate, dateLe d d = true) := by
  refine ⟨?_, ?_, ?_⟩
  · intro lo hi hdr r
    rw [applyFilter_two ds sel lo hi hdr,
      applyFilter_other ds { sel with dateRange := [] } (by simp)]
    rw [List.mem_filter]
    simp [Bool.and_eq_true]
  · intro h
    rw [applyFilter_other ds sel h,
      applyFilter_other ds { sel with dateRange := [] } (by simp)]
  · intro d
    simp [dateLe]

/-- Witness for C3 on a concrete dataset: a one-endpoint range filters
nothing, and a full-day range keeps exactly the same-day record. -/
theorem date_facet_spec_witness :
    applyFilter dsTwoDates
        { platform := "All", sentiment := "All", mediaType := "All",
          location := "All", dateRange := [⟨2024, 1, 1⟩] }
      = applyFilter dsTwoDates selAll ∧
    ({ date := ⟨2024, 1, 1⟩, engagements := 10, platform := some "X",
       sentiment := some "Positive", mediaType := some "Video",
       location := some "NY" } : CanonRecord)
      ∈ applyFilter dsTwoDates
          { platform := "All", sentiment := "All", mediaType := "All",
            location := "All", dateRange := [⟨2024, 1, 1⟩, ⟨2024, 1, 1⟩] } :=
  ⟨(date_facet_spec dsTwoDates
      { platform := "All", sentiment := "All", mediaType := "All",
        location := "All", dateRange := [⟨2024, 1, 1⟩] }).2.1 (by decide),
   ((date_facet_spec dsTwoDates
      { platform := "All", sentiment := "All", mediaType := "All",
        location := "All", dateRange := [⟨2024, 1, 1⟩, ⟨2024, 1, 1⟩] }).1
      ⟨2024, 1, 1⟩ ⟨2024, 1, 1⟩ rfl _).mpr ⟨by decide, by decide, by decide⟩⟩

/-- Claim C4: Filtering is monotone: the filtered view is a sublist of the
dataset (hence at most as many records, preserving original relative
order), and the selection with `"All"` on every categorical facet and a
full date range (one covering every record's date) returns the dataset
unchanged. -/
theorem filter_monotone_spec (ds : List CanonRecord) (sel : Selection) :
    List.Sublist (applyFilter ds sel) ds ∧
    (applyFilter ds sel).length ≤ ds.length ∧
    (sel.platform = "All" → sel.sentiment = "All" → sel.mediaType = "All" →
      sel.location = "All" →
      ∀ lo hi, sel.dateRange = [lo, hi] →
        (∀ r ∈ ds, dateLe lo r.date = true ∧ dateLe r.date hi = true) →
        applyFilter ds sel = ds) := by
  refine ⟨applyFilter_sublist ds sel, (applyFilter_sublist ds sel).length_le, ?_⟩
  intro h1 h2 h3 h4 lo hi hdr hcov
  rw [applyFilter_two ds sel lo hi hdr, h1, h2, h3, h4,
    facetFilter_all, facetFilter_all, facetFilter_all, facetFilter_all]
  apply List.filter_eq_self.mpr
  intro r hr
  rcases hcov r hr with ⟨ha, hb⟩
  rw [ha, hb]
  rfl

/-- Witness for C4: with `"All"` everywhere and the range spanning both
dataset dates, the filtered view is the whole two-record dataset. -/
theorem filter_monotone_spec_witness :
    applyFilter dsTwoDates
        { platform := "All", sentiment := "All", mediaType := "All",
          location := "All", dateRange := [⟨2024, 1, 1⟩, ⟨2024, 1, 2⟩] }
      = dsTwoDates ∧
    (applyFilter dsTwoDates
        { platform := "All", sentiment := "All", mediaType := "All",
          location := "All", dateRange := [⟨2024, 1, 1⟩, ⟨2024, 1, 2⟩] }).length
      ≤ dsTwoDates.length :=
  ⟨(filter_monotone_spec dsTwoDates
      { platform := "All", sentiment := "All", mediaType := "All",
        location := "All", dateRange := [⟨2024, 1, 1⟩, ⟨2024, 1, 2⟩] }).2.2
      rfl rfl rfl rfl ⟨2024, 1, 1⟩ ⟨2024, 1, 2⟩ rfl (by decide),
   (filter_monotone_spec dsTwoDates
      { platform := "All", sentiment := "All", mediaType := "All",
        location := "All", dateRange := [⟨2024, 1, 1⟩, ⟨2024, 1, 2⟩] }).2.1⟩

/-- Claim C5 (amended): The per-group totals of
`groupby('Platform')['Engagements'].sum()` add up to the sum of
`Engagements` over the records of the view whose `Platform` is non-null —
pandas `groupby` drops null keys, so rows with an empty `Platform` cell
are missing from every group.  Conservation against the whole view holds
exactly when every record carries a platform value. -/
theorem groupSum_conservation (view : List CanonRecord) :
    groupTotal view = sumEng (view.filter (fun r => r.platform.isSome)) ∧
    ((∀ r ∈ view, r.platform.isSome) → groupTotal view = sumEng view) := by
  refine ⟨groupTotal_eq view, fun h => ?_⟩
  rw [groupTotal_eq view, List.filter_eq_self.mpr h]

/-- Witness for C5 on a view whose platforms are all present. -/
theorem groupSum_conservation_witness :
    groupTotal dsTwoDates = sumEng dsTwoDates :=
  (groupSum_conservation dsTwoDates).2 (by decide)

/-- Claim C5 (counterexample): On the filtered view of `csvNullPlatform`
under the all-`"All"` selection, the group totals sum to 10 while the
view's engagements sum to 15: the row with a null `Platform` is dropped
from every group, so conservation fails as originally claimed. -/
theorem groupSum_conservation_cex :
    cleanBody csvNullPlatform = CleanOutcome.ok dsNullPlatform ∧
    applyFilter dsNullPlatform selAll = dsNullPlatform ∧
    groupTotal (applyFilter dsNullPlatform selAll) = 10 ∧
    sumEng (applyFilter dsNullPlatform selAll) = 15 ∧
    (10 : Int) ≠ 15 :=
  ⟨by decide, by decide, by decide, by decide, by decide⟩

/-- Claim C8: On an empty filtered view `generate_summary` returns the empty
marker `""` rather than raising, `groupSum` returns an empty mapping, and
the main area distinguishes the no-upload notice from the no-rows-matched
warning. -/
theorem empty_view_spec :
    generate_summary [] = Summary.empty ∧
    groupSumPlatform [] = [] ∧
    renderMain none [] = MainView.noData ∧
    (∀ ds : List CanonRecord, renderMain (some ds) [] = MainView.emptyResult) ∧
    MainView.noData ≠ MainView.emptyResult :=
  ⟨rfl, rfl, rfl, fun _ => rfl, by decide⟩

/-- Witness for C8 at a concrete dataset. -/
theorem empty_view_spec_witness :
    renderMain (some dsTwoDates) [] = MainView.emptyResult :=
  empty_view_spec.2.2.2.1 dsTwoDates

/-- Claim C7 (amended): On a non-empty view, only the top-platform fact
falls back to the sentinel `'Tidak Tersedia'` when its column has no
non-null values (the `groupby` result is then empty, so the `idxmax`
guard fires).  The three `mode()[0]` facts never reach their sentinel on
a non-empty view: if the sentiment, media-type, or location column is
entirely null, `mode()[0]` raises inside the `try`, and
`generate_summary` returns the fixed failure message instead of the
claimed per-fact sentinel (the exception is caught, so nothing
propagates to the caller). -/
theorem summary_sentinel_amended (df : List CanonRecord) (hne : df ≠ []) :
    (df.filterMap (·.platform) = [] → top_platform df = "Tidak Tersedia") ∧
    (df.filterMap (·.sentiment) = [] → generate_summary df = Summary.failed) ∧
    (df.filterMap (·.mediaType) = [] → generate_summary df = Summary.failed) ∧
    (df.filterMap (·.location) = [] → generate_summary df = Summary.failed) := by
  refine ⟨?_, ?_, ?_, ?_⟩
  · intro h
    simp [top_platform, groupSumPlatform, platKeys, h, firstSeen, firstSeenAux,
      sortStr]
  · intro h
    exact generate_summary_failed_of df hne
      (Or.inl (dominant_sentiment_none df hne h))
  · intro h
    exact generate_summary_failed_of df hne
      (Or.inr (Or.inl (top_media_type_none df hne h)))
  · intro h
    exact generate_summary_failed_of df hne
      (Or.inr (Or.inr (top_location_none df hne h)))

/-- Witness for C7: a one-record view with a null platform gets the
platform sentinel, and a one-record view with a null location makes the
summary come back as the failure message. -/
theorem summary_sentinel_amended_witness :
    top_platform
        [{ date := ⟨2024, 1, 1⟩, engagements := 0, platform := none,
           sentiment := some "Pos", mediaType := some "Video",
           location := some "NY" }]
      = "Tidak Tersedia" ∧
    generate_summary
        [{ date := ⟨2024, 1, 1⟩, engagements := 0, platform := some "X",
           sentiment := some "Pos", mediaType := some "Video",
           location := none }]
      = Summary.failed :=
  ⟨(summary_sentinel_amended
      [{ date := ⟨2024, 1, 1⟩, engagements := 0, platform := none,
         sentiment := some "Pos", mediaType := some "Video",
         location := some "NY" }] (by decide)).1 (by decide),
   (summary_sentinel_amended
      [{ date := ⟨2024, 1, 1⟩, engagements := 0, platform := some "X",
         sentiment := some "Pos", mediaType := some "Video",
         location := none }] (by decide)).2.2.2 (by decide)⟩

/-- Claim C7 (counterexample): The cleaned view of `csvNullSentiment` is
non-empty with an entirely-null `Sentiment` column; `generate_summary`
returns the failure message, not a fact set with the sentiment fact set
to the sentinel — refuting "the sentinel covers the all-null column case
and the condition is never surfaced as a failure". -/
theorem summary_sentinel_cex :
    cleanBody csvNullSentiment
      = CleanOutcome.ok
          [{ date := ⟨2024, 1, 1⟩, engagements := 10, platform := some "X",
             sentiment := none, mediaType := some "Video",
             location := some "NY" }] ∧
    generate_summary
        [{ date := ⟨2024, 1, 1⟩, engagements := 10, platform := some "X",
           sentiment := none, mediaType := some "Video",
           location := some "NY" }]
      = Summary.failed :=
  ⟨by decide, by decide⟩

/-- Properties of the top-5 location ranking that hold however the
library's sort orders equal counts: at most five distinct entries, each
carrying its true occurrence count over the view's location values, in
descending count order; every kept count is at least every excluded
value's count; and when at most five distinct values exist, all of them
are kept. -/
theorem top_locations_basic (view : List CanonRecord) :
    (top_locations view).length ≤ 5 ∧
    ((top_locations view).map (fun p => p.1)).Nodup ∧
    (top_locations view).Pairwise (fun a b => b.2 ≤ a.2) ∧
    (∀ p ∈ top_locations view,
      p.2 = countOcc p.1 (view.filterMap (·.location)) ∧
      p.1 ∈ view.filterMap (·.location)) ∧
    (∀ p ∈ top_locations view, ∀ v ∈ view.filterMap (·.location),
      v ∉ (top_locations view).map (fun p => p.1) →
      countOcc v (view.filterMap (·.location)) ≤ p.2) ∧
    ((firstSeen (view.filterMap (·.location))).length ≤ 5 →
      ∀ v ∈ firstSeen (view.filterMap (·.location)),
        v ∈ (top_locations view).map (fun p => p.1)) := by
  have e : top_locations view
      = (sortCnt ((firstSeen (view.filterMap (·.location))).map
          (fun v => (v, countOcc v (view.filterMap (·.location)))))).take 5 := rfl
  rw [e]
  set l := view.filterMap (·.location) with hl
  have hfst : ((firstSeen l).map (fun v => (v, countOcc v l))).map (fun p => p.1)
      = firstSeen l := by
    have hcomp : ((fun p : String × Nat => p.1) ∘ fun v => (v, countOcc v l))
        = fun v => v := rfl
    rw [List.map_map, hcomp]
    exact List.map_id' (firstSeen l)
  have hperm := sortCnt_perm ((firstSeen l).map (fun v => (v, countOcc v l)))
  refine ⟨?_, ?_, ?_, ?_, ?_, ?_⟩
  · rw [List.length_take]
    exact min_le_left _ _
  · refine List.Nodup.sublist ((List.take_sublist _ _).map _) ?_
    refine (hperm.map (fun p => p.1)).nodup_iff.mpr ?_
    rw [hfst]
    exact firstSeen_nodup l
  · exact (sortCnt_pairwise _).sublist (List.take_sublist 5 _)
  · intro p hp
    have hp' : p ∈ (firstSeen l).map (fun v => (v, countOcc v l)) :=
      hperm.mem_iff.mp ((List.take_sublist 5 _).subset hp)
    rcases List.mem_map.mp hp' with ⟨v, hv, hpv⟩
    constructor
    · rw [← hpv]
    · rw [← hpv]
      exact (firstSeen_mem l v).mp hv
  · intro p hp v hv hnot
    have hv1 : v ∈ firstSeen l := (firstSeen_mem l v).mpr hv
    have hv3 : (v, countOcc v l)
        ∈ sortCnt ((firstSeen l).map (fun v => (v, countOcc v l))) :=
      hperm.mem_iff.mpr (List.mem_map.mpr ⟨v, hv1, rfl⟩)
    have hsplit :=
      List.take_append_drop 5
        (sortCnt ((firstSeen l).map (fun v => (v, countOcc v l))))
    have hv4 : (v, countOcc v l)
        ∈ (sortCnt ((firstSeen l).map (fun v => (v, countOcc v l)))).take 5
          ++ (sortCnt ((firstSeen l).map (fun v => (v, countOcc v l)))).drop 5 := by
      rw [hsplit]
      exact hv3
    rcases List.mem_append.mp hv4 with h | h
    · exact absurd (List.mem_map.mpr ⟨(v, countOcc v l), h, rfl⟩) hnot
    · have hpw : ((sortCnt ((firstSeen l).map (fun v => (v, countOcc v l)))).take 5
          ++ (sortCnt ((firstSeen l).map (fun v => (v, countOcc v l)))).drop 5).Pairwise
            (fun a b => b.2 ≤ a.2) := by
        rw [hsplit]
        exact sortCnt_pairwise _
      exact (List.pairwise_append.mp hpw).2.2 p hp (v, countOcc v l) h
  · intro hlen v hv
    have hlen2 :
        (sortCnt ((firstSeen l).map (fun v => (v, countOcc v l)))).length ≤ 5 := by
      rw [hperm.length_eq, List.length_map]
      exact hlen
    rw [List.take_of_length_le hlen2]
    exact List.mem_map.mpr ⟨(v, countOcc v l),
      hperm.mem_iff.mpr (List.mem_map.mpr ⟨v, hv, rfl⟩), rfl⟩
